import Mathlib

/-!
Verification development for the octobe unit-of-work library.

The definitions below are shallow embeddings of the Go sources:
- `Octobe.Firestore` embeds `driver/firestore/firestore.go` (the optimistic
  commit retry loop, rollback, and the cancellable `sleep` wrapper);
- `Octobe.Pgx` and `Octobe.PgxPool` embed the v3 pgx driver
  (`pgxSession`/`pgxSegment`/`pgxpoolSession`);
- `Octobe.PostgresV2` embeds `driver/postgres/postgres.go` (the v2 driver);
- `Octobe.V1` embeds the original `options.go` (`Scheme`, `Segment`,
  `suppressErrors`, `Handle`).

Backend I/O is represented by oracles: functions or values supplied as
arguments that give the outcome of each backend RPC. Each operation returns,
besides its Go return value, the number of backend calls it issued, so that
"performs no backend call" style properties are directly checkable.
-/

namespace Octobe

/-- A Go `error` value as observed at the octobe layer: either a library
error created with `errors.New`/sentinels, or an opaque error produced by the
backend adapter (tagged with a number so distinct backend errors can be told
apart). `alreadyUsed` is the `octobe.ErrAlreadyUsed` sentinel. -/
inductive Err
  | msg (s : String)
  | alreadyUsed
  | backend (n : Nat)
deriving DecidableEq, Repr

namespace Firestore

/-- gRPC status codes relevant to the firestore driver. -/
inductive Code
  | ok
  | aborted
  | canceled
  | deadlineExceeded
  | unknown
deriving DecidableEq, Repr

/-- A firestore-level Go `error`: a gRPC status error, a plain
`errors.New` error, or an opaque backend error (non-status). -/
inductive FsErr
  | status (c : Code) (m : String)
  | simple (m : String)
  | backend (n : Nat)
deriving DecidableEq, Repr

/-- `status.Code(err)`: `codes.OK` for a nil error, the embedded code for a
status error, `codes.Unknown` for any non-status error. -/
def statusCode : Option FsErr → Code
  | none => Code.ok
  | some (FsErr.status c _) => c
  | some (FsErr.simple _) => Code.unknown
  | some (FsErr.backend _) => Code.unknown

/-- Context state observed during one backoff sleep. -/
inductive CtxErr
  | canceled
  | deadlineExceeded
deriving DecidableEq, Repr

/-- `sleep(ctx, dur)` from firestore.go: wraps `gax.Sleep` and converts a
`context.Canceled` / `context.DeadlineExceeded` result into the
corresponding gRPC status error; otherwise passes the result through
(a completed sleep yields nil). -/
def sleep (ctxOutcome : Option CtxErr) : Option FsErr :=
  match ctxOutcome with
  | some CtxErr.canceled => some (FsErr.status Code.canceled "context canceled")
  | some CtxErr.deadlineExceeded =>
      some (FsErr.status Code.deadlineExceeded "context deadline exceeded")
  | none => none

/-- The backend as seen by one `Commit`/`Rollback` invocation:
`commitResult i` is the outcome of the i-th `client.Commit` RPC (0-indexed,
`none` = success), `ctxDuringSleep i` is the context state during the i-th
backoff sleep, `rollbackResult` is the outcome of a `client.Rollback` RPC. -/
structure Backend where
  commitResult : Nat → Option FsErr
  ctxDuringSleep : Nat → Option CtxErr
  rollbackResult : Option FsErr

/-- The firestore `session` struct: transaction id bytes (`none` when the
session was begun without a transaction), staged writes, the read-only and
max-attempts configuration, and the committed flag. -/
structure Session where
  txId : Option Nat
  writes : List Nat
  readOnly : Bool
  maxAttempts : Nat
  committed : Bool
deriving DecidableEq, Repr

/-- How the `for i := 0; i < s.cfg.maxAttempts; i++` loop in
`session.Commit` terminated. -/
inductive LoopExit
  | returned (e : Option FsErr)
  | fellThrough
deriving DecidableEq, Repr

/-- Result of running the retry loop: how it exited, how many `client.Commit`
RPCs and sleeps it performed, the session writes at exit, and the value of
the function-scope `err` variable at exit. -/
structure LoopRes where
  exit : LoopExit
  commitCalls : Nat
  sleepCalls : Nat
  writes : List Nat
  outerErr : Option FsErr
deriving Repr

/-- The retry loop of `session.Commit` in firestore.go, fuel = remaining
iterations, `i` = current iteration index, `outerErr` = the function-scope
`var err error`. Inside the loop body, `_, err := s.client.Commit(...)`
declares a fresh loop-local `err` that shadows the function-scope one, so
both the `err = cerr` assignment after a cancelled sleep and the final
abort error are written to the loop-local variable; the function-scope
`outerErr` is never assigned. -/
def commitLoop (b : Backend) (readOnly : Bool) :
    Nat → Nat → List Nat → Option FsErr → LoopRes
  | 0, _, writes, outerErr =>
      { exit := LoopExit.fellThrough, commitCalls := 0, sleepCalls := 0,
        writes := writes, outerErr := outerErr }
  | fuel + 1, i, writes, outerErr =>
      let innerErr := b.commitResult i
      if readOnly || !(statusCode innerErr == Code.aborted) then
        -- "If a read-write transaction returns Aborted, retry.
        --  On success or other failures, return here."
        { exit := LoopExit.returned innerErr, commitCalls := 1, sleepCalls := 0,
          writes := writes, outerErr := outerErr }
      else
        match sleep (b.ctxDuringSleep i) with
        | some _cerr =>
            -- `err = cerr` writes the shadowed loop-local `err`, then `break`:
            -- the function-scope variable is left untouched.
            { exit := LoopExit.fellThrough, commitCalls := 1, sleepCalls := 1,
              writes := writes, outerErr := outerErr }
        | none =>
            -- "Reset state for the next attempt." (`s.writes = nil`)
            let rest := commitLoop b readOnly fuel (i + 1) [] outerErr
            { exit := rest.exit, commitCalls := rest.commitCalls + 1,
              sleepCalls := rest.sleepCalls + 1, writes := rest.writes,
              outerErr := rest.outerErr }

/-- `session.Rollback` from firestore.go: returns the "cannot rollback
without transaction" error (and issues no RPC) when `txId` is nil, otherwise
issues one `client.Rollback` RPC and returns its outcome. The second
component counts the backend rollback calls. -/
def Session.Rollback (s : Session) (b : Backend) : Option FsErr × Nat :=
  match s.txId with
  | none => (some (FsErr.simple "cannot rollback without transaction"), 0)
  | some _ => (b.rollbackResult, 1)

/-- Observable outcome of `session.Commit`: returned error, number of
`client.Commit` RPCs, number of sleeps, number of `client.Rollback` RPCs,
and the session state after the deferred `s.committed = true` ran. -/
structure CommitOutcome where
  ret : Option FsErr
  commitCalls : Nat
  sleepCalls : Nat
  rollbackCalls : Nat
  session : Session
deriving Repr

/-- `session.Commit` from firestore.go. Guard: nil `txId` fails with
"cannot commit without transaction". Otherwise `defer s.committed = true`
is armed and the retry loop runs for `maxAttempts` iterations. If the loop
body returned, that (loop-local) error is the result. If the loop ended by
`break` or by exhausting the budget, the function-scope `err` — never
assigned, due to the shadowing in the loop body — is checked: the
`return s.Rollback()` branch is therefore unreachable and the function
returns nil. -/
def Session.Commit (s : Session) (b : Backend) : CommitOutcome :=
  match s.txId with
  | none =>
      { ret := some (FsErr.simple "cannot commit without transaction"),
        commitCalls := 0, sleepCalls := 0, rollbackCalls := 0, session := s }
  | some _ =>
      let r := commitLoop b s.readOnly s.maxAttempts 0 s.writes none
      -- deferred closure: `s.committed = true` on every return path below
      let sFinal : Session := { s with committed := true, writes := r.writes }
      -- returned error and rollback-RPC count, per exit path. `Rollback`
      -- reads only `txId`, which no path modifies.
      let retRb : Option FsErr × Nat :=
        match r.exit with
        | LoopExit.returned e => (e, 0)
        | LoopExit.fellThrough =>
            match r.outerErr with
            | some _ =>
                -- `if err != nil { return s.Rollback() }`
                ((Session.Rollback sFinal b).1, (Session.Rollback sFinal b).2)
            | none => (none, 0)
      { ret := retRb.1, commitCalls := r.commitCalls, sleepCalls := r.sleepCalls,
        rollbackCalls := retRb.2, session := sFinal }

/-- A backend stub whose commit RPC always reports "aborted due to conflict"
and whose context never fires during sleeps. -/
def alwaysAborted : Backend :=
  { commitResult := fun _ => some (FsErr.status Code.aborted "aborted"),
    ctxDuringSleep := fun _ => none,
    rollbackResult := none }

/-- Like `alwaysAborted`, but the session context is cancelled from the
first backoff sleep onwards. -/
def abortedThenCanceled : Backend :=
  { commitResult := fun _ => some (FsErr.status Code.aborted "aborted"),
    ctxDuringSleep := fun _ => some CtxErr.canceled,
    rollbackResult := none }

end Firestore

namespace Pgx

/-- The v3 `pgxSession`: whether `cfg.txOptions` was set (Begin only creates
a `pgx.Tx` in that case) and the committed flag. -/
structure Session where
  hasTxOptions : Bool
  committed : Bool
deriving DecidableEq, Repr

/-- `pgxSession.Commit`: an already-committed session fails with the
"already committed" error; a session without transaction options fails with
the "without transaction" error; otherwise `defer s.committed = true` runs
and one backend `tx.Commit` is issued, whose outcome (`txCommit`) is
returned. Result: (returned error, session after, backend commit calls). -/
def Session.Commit (s : Session) (txCommit : Option Err) :
    Option Err × Session × Nat :=
  if s.committed then
    (some (Err.msg "cannot commit a session that has already been committed"), s, 0)
  else if !s.hasTxOptions then
    (some (Err.msg "cannot commit without transaction"), s, 0)
  else
    (txCommit, { s with committed := true }, 1)

/-- `pgxSession.Rollback`: fails without backend call when the session has no
transaction options, otherwise issues one backend `tx.Rollback` and returns
its outcome. Result: (returned error, backend rollback calls). -/
def Session.Rollback (s : Session) (txRollback : Option Err) : Option Err × Nat :=
  if !s.hasTxOptions then
    (some (Err.msg "cannot rollback without transaction"), 0)
  else
    (txRollback, 1)

/-- The v3 `pgxSegment`: query text, positional arguments, the used flag,
and whether the session had an active transaction (`tx ≠ nil`). -/
structure Segment where
  query : String
  args : List Nat
  used : Bool
  hasTx : Bool
deriving DecidableEq, Repr

/-- The backend as seen by one segment execution: outcome of an Exec RPC
(rows affected, or error), of a `QueryRow(...).Scan`, of a Query RPC, and of
the caller's row callback. The same oracle covers the `s.tx` and
`s.d.conn` paths, which differ only in which handle receives the call. -/
structure SegBackend where
  execResult : Except Err Nat
  queryRowScan : Option Err
  queryResult : Option Err
  cbResult : Option Err
deriving Repr

/-- `pgxSegment.Exec`: a used segment returns `octobe.ErrAlreadyUsed` with
no backend call; otherwise `defer s.use()` marks the segment used
(whether the backend call succeeds or fails) and one backend Exec is
issued. Result: (command result or error, segment after, backend calls). -/
def Segment.Exec (s : Segment) (b : SegBackend) :
    Except Err Nat × Segment × Nat :=
  if s.used then
    (Except.error Err.alreadyUsed, s, 0)
  else
    match b.execResult with
    | Except.error e => (Except.error e, { s with used := true }, 1)
    | Except.ok n => (Except.ok n, { s with used := true }, 1)

/-- `pgxSegment.QueryRow`: same used-guard, then one backend
`QueryRow(...).Scan` whose outcome is returned. -/
def Segment.QueryRow (s : Segment) (b : SegBackend) :
    Option Err × Segment × Nat :=
  if s.used then
    (some Err.alreadyUsed, s, 0)
  else
    (b.queryRowScan, { s with used := true }, 1)

/-- `pgxSegment.Query`: same used-guard, then one backend Query; on RPC
error that error is returned, otherwise the row callback runs and its
outcome is returned. -/
def Segment.Query (s : Segment) (b : SegBackend) :
    Option Err × Segment × Nat :=
  if s.used then
    (some Err.alreadyUsed, s, 0)
  else
    match b.queryResult with
    | some e => (some e, { s with used := true }, 1)
    | none => (b.cbResult, { s with used := true }, 1)

end Pgx

namespace PgxPool

/-- The v3 `pgxpoolSession` (same fields as `pgxSession` as far as the
commit protocol is concerned). -/
structure Session where
  hasTxOptions : Bool
  committed : Bool
deriving DecidableEq, Repr

/-- `pgxpoolSession.Commit`: identical guard structure to
`pgxSession.Commit` — "already committed" first, then "without
transaction", then `defer s.committed = true` and one backend commit. -/
def Session.Commit (s : Session) (txCommit : Option Err) :
    Option Err × Session × Nat :=
  if s.committed then
    (some (Err.msg "cannot commit a session that has already been committed"), s, 0)
  else if !s.hasTxOptions then
    (some (Err.msg "cannot commit without transaction"), s, 0)
  else
    (txCommit, { s with committed := true }, 1)

end PgxPool

namespace PostgresV2

/-- The v2 `session` from driver/postgres/postgres.go: whether
`cfg.txOptions` was set, and the committed flag. (In v2, Begin creates a
backend transaction in both cases; `txOptions` only controls the guards.) -/
structure Session where
  hasTxOptions : Bool
  committed : Bool
deriving DecidableEq, Repr

/-- v2 `session.Commit`: only the "without transaction" guard exists — there
is no check of the committed flag — then `defer s.committed = true` runs and
one backend `tx.Commit` is issued, its outcome returned. -/
def Session.Commit (s : Session) (txCommit : Option Err) :
    Option Err × Session × Nat :=
  if !s.hasTxOptions then
    (some (Err.msg "cannot commit without transaction"), s, 0)
  else
    (txCommit, { s with committed := true }, 1)

/-- v2 `session.Rollback`: "without transaction" guard, then one backend
`tx.Rollback` whose outcome is returned. -/
def Session.Rollback (s : Session) (txRollback : Option Err) : Option Err × Nat :=
  if !s.hasTxOptions then
    (some (Err.msg "cannot rollback without transaction"), 0)
  else
    (txRollback, 1)

/-- Observable outcome of v2 `session.WatchRollback`: whether the callback
was invoked, how many backend rollback calls were issued, and the errors the
caller receives. The Go method returns nothing and both `Rollback` calls
appear as `_ = s.Rollback()`, so `surfaced` is the empty list on every
path. -/
structure WatchOutcome where
  cbInvoked : Bool
  rollbackCalls : Nat
  surfaced : List Err
deriving DecidableEq, Repr

/-- v2 `session.WatchRollback(cb)`: if the session is not committed,
rollback is attempted (its error discarded) and `cb` is never invoked;
otherwise `cb` runs and rollback is attempted (error again discarded) only
when `cb` yields a non-nil error. -/
def Session.WatchRollback (s : Session) (cbResult : Option Err)
    (txRollback : Option Err) : WatchOutcome :=
  if !s.committed then
    { cbInvoked := false, rollbackCalls := (Session.Rollback s txRollback).2,
      surfaced := [] }
  else if cbResult.isSome then
    { cbInvoked := true, rollbackCalls := (Session.Rollback s txRollback).2,
      surfaced := [] }
  else
    { cbInvoked := true, rollbackCalls := 0, surfaced := [] }

/-- The v2 `Segment` from driver/postgres/postgres.go (always bound to the
session's `pgx.Tx`). -/
structure Segment where
  query : String
  args : List Nat
  used : Bool
deriving DecidableEq, Repr

/-- v2 `Segment.Exec`: used-guard returning `octobe.ErrAlreadyUsed` with no
backend call, otherwise `defer s.use()` and one `tx.Exec`. -/
def Segment.Exec (s : Segment) (execResult : Except Err Nat) :
    Except Err Nat × Segment × Nat :=
  if s.used then
    (Except.error Err.alreadyUsed, s, 0)
  else
    match execResult with
    | Except.error e => (Except.error e, { s with used := true }, 1)
    | Except.ok n => (Except.ok n, { s with used := true }, 1)

/-- v2 `Segment.QueryRow`: used-guard, then one `tx.QueryRow(...).Scan`. -/
def Segment.QueryRow (s : Segment) (scanResult : Option Err) :
    Option Err × Segment × Nat :=
  if s.used then
    (some Err.alreadyUsed, s, 0)
  else
    (scanResult, { s with used := true }, 1)

/-- v2 `Segment.Query`: used-guard, then one `tx.Query`; on RPC error that
error is returned, otherwise the row callback's outcome is returned. -/
def Segment.Query (s : Segment) (queryResult : Option Err)
    (cbResult : Option Err) : Option Err × Segment × Nat :=
  if s.used then
    (some Err.alreadyUsed, s, 0)
  else
    match queryResult with
    | some e => (some e, { s with used := true }, 1)
    | none => (cbResult, { s with used := true }, 1)

end PostgresV2

namespace V1

/-- The original `Scheme` from options.go. Its `db` field is the
`transactionlike` interface; `Commit`/`Rollback` type-assert whether the
dynamic value also has a `Commit() error` / `Rollback() error` method. A
scheme made by `Begin` wraps the plain DB handle (`*sql.DB`, which has
neither method); a scheme made by `BeginTx` wraps a `*sql.Tx` (which has
both). -/
structure Scheme where
  dbHasCommit : Bool
  dbHasRollback : Bool
deriving DecidableEq, Repr

/-- `Octobe.Begin`: the scheme wraps the plain DB handle. -/
def begin : Scheme := { dbHasCommit := false, dbHasRollback := false }

/-- `Octobe.BeginTx`: the scheme wraps a `*sql.Tx` transaction handle. -/
def beginTx : Scheme := { dbHasCommit := true, dbHasRollback := true }

/-- v1 `Scheme.Commit`: if the dynamic type of `scheme.db` has a
`Commit() error` method, call it (one backend call) and return its outcome;
otherwise return nil with no backend call. Result: (returned error, backend
commit calls). -/
def Scheme.Commit (s : Scheme) (txCommit : Option Err) : Option Err × Nat :=
  if s.dbHasCommit then (txCommit, 1) else (none, 0)

/-- v1 `Scheme.Rollback`: symmetric to `Scheme.Commit` for the
`Rollback() error` method. -/
def Scheme.Rollback (s : Scheme) (txRollback : Option Err) : Option Err × Nat :=
  if s.dbHasRollback then (txRollback, 1) else (none, 0)

/-- A v1 option value; `suppressError` is the only kind defined in
options.go, carrying the error the caller wants suppressed. -/
inductive Opt
  | suppressError (e : Option Err)
deriving DecidableEq, Repr

/-- `convertOptions`: folds the option slice into the internal option
struct, collecting the suppressed errors in order. -/
def convertOptions (opts : List Opt) : List (Option Err) :=
  opts.map fun o => match o with | Opt.suppressError e => e

/-- `suppressErrors(err, errs)`: returns nil as soon as `err` equals one of
the suppressed errors, otherwise returns `err` unchanged. -/
def suppressErrors (err : Option Err) (suppressErrs : List (Option Err)) :
    Option Err :=
  if suppressErrs.contains err then none else err

/-- `Scheme.Handle(handler, opts...)`: runs the handler against the scheme
(its outcome is the `handlerResult` oracle) and filters the result through
`suppressErrors` with the collected suppress options. -/
def Scheme.Handle (_s : Scheme) (handlerResult : Option Err)
    (opts : List Opt) : Option Err :=
  suppressErrors handlerResult (convertOptions (opts))

/-- The v1 `errs` compound error (from the error-aggregation file): an
ordered slice of underlying errors, possibly with nil entries. Its
`Is(target)` walks the entries with `errors.Is(candidate, target)`, which
for these plain error values is equality, and a nil candidate never matches
a non-nil target — so a compound matches `target` exactly when some entry is
that error. -/
def errsIs (entries : List (Option Err)) (target : Err) : Bool :=
  entries.contains (some target)

/-- v1 `Scheme.WatchRollback(cb)`: the producer is invoked unconditionally
(the v1 Scheme tracks no committed state); when it yields a non-nil error,
`Rollback` is attempted and the method returns `errs{err, scheme.Rollback()}`,
the compound preserving the triggering error and the rollback outcome as
its entries; otherwise it returns nil without attempting rollback. Result:
(returned compound as its entry list — `none` when the method returns nil —
and backend rollback calls). -/
def Scheme.WatchRollback (s : Scheme) (cbResult : Option Err)
    (txRollback : Option Err) : Option (List (Option Err)) × Nat :=
  match cbResult with
  | some e =>
      (some [some e, (Scheme.Rollback s txRollback).1],
       (Scheme.Rollback s txRollback).2)
  | none => (none, 0)

end V1

/-!
Theorems settling the claims. Oracles are universally quantified where the
claim is universal; concrete stubs (`alwaysAborted`, `abortedThenCanceled`)
are used where a claim is evaluated at one input.
-/

/-- Claim C1 (evaluation at the failing input): with a read-write firestore
session whose budget is `maxAttempts = 2` and a backend that reports Aborted
on every commit RPC, `session.Commit` performs exactly 2 commit RPCs and
2 backoff sleeps, marks the session committed, issues no rollback — and
returns nil rather than the last abort error, because the loop-local `err`
shadows the function-scope `err` that the post-loop code inspects. -/
theorem fs_commit_budget_exhaustion_returns_nil :
    Firestore.Session.Commit
        { txId := some 1, writes := [], readOnly := false,
          maxAttempts := 2, committed := false }
        Firestore.alwaysAborted
      = { ret := none, commitCalls := 2, sleepCalls := 2, rollbackCalls := 0,
          session := { txId := some 1, writes := [], readOnly := false,
                       maxAttempts := 2, committed := true } } := rfl

/-- Claim C2 (evaluation at the failing input): with `maxAttempts = 3`, a
backend that reports Aborted, and a session context that is cancelled during
the first backoff sleep, `session.Commit` stops after 1 commit RPC and
1 sleep (no further attempts) — but returns nil instead of the cancellation
error: `err = cerr` writes the shadowed loop-local variable, so the
function-scope `err` checked after the loop is still nil. The staged writes
are also left in place on this path. -/
theorem fs_commit_cancelled_sleep_returns_nil :
    Firestore.Session.Commit
        { txId := some 1, writes := [5], readOnly := false,
          maxAttempts := 3, committed := false }
        Firestore.abortedThenCanceled
      = { ret := none, commitCalls := 1, sleepCalls := 1, rollbackCalls := 0,
          session := { txId := some 1, writes := [5], readOnly := false,
                       maxAttempts := 3, committed := true } } := rfl

/-- Claim C3: for any pgx or v2 postgres segment, the first call to any
execution method (Exec/QueryRow/Query) turns the `used` flag true — whatever
the backend outcome — issuing exactly one backend call, and any execution
method invoked on a used segment returns the `ErrAlreadyUsed` sentinel,
leaves the segment unchanged and issues zero backend calls. -/
theorem segment_single_use (q : String) (a : List Nat) (tx : Bool)
    (b b2 : Pgx.SegBackend) (er : Except Err Nat) (sr qr cr : Option Err) :
    ((Pgx.Segment.Exec ⟨q, a, false, tx⟩ b).2 = (⟨q, a, true, tx⟩, 1))
  ∧ ((Pgx.Segment.QueryRow ⟨q, a, false, tx⟩ b).2 = (⟨q, a, true, tx⟩, 1))
  ∧ ((Pgx.Segment.Query ⟨q, a, false, tx⟩ b).2 = (⟨q, a, true, tx⟩, 1))
  ∧ (Pgx.Segment.Exec ⟨q, a, true, tx⟩ b2
       = (Except.error Err.alreadyUsed, ⟨q, a, true, tx⟩, 0))
  ∧ (Pgx.Segment.QueryRow ⟨q, a, true, tx⟩ b2
       = (some Err.alreadyUsed, ⟨q, a, true, tx⟩, 0))
  ∧ (Pgx.Segment.Query ⟨q, a, true, tx⟩ b2
       = (some Err.alreadyUsed, ⟨q, a, true, tx⟩, 0))
  ∧ ((PostgresV2.Segment.Exec ⟨q, a, false⟩ er).2 = (⟨q, a, true⟩, 1))
  ∧ ((PostgresV2.Segment.QueryRow ⟨q, a, false⟩ sr).2 = (⟨q, a, true⟩, 1))
  ∧ ((PostgresV2.Segment.Query ⟨q, a, false⟩ qr cr).2 = (⟨q, a, true⟩, 1))
  ∧ (PostgresV2.Segment.Exec ⟨q, a, true⟩ er
       = (Except.error Err.alreadyUsed, ⟨q, a, true⟩, 0))
  ∧ (PostgresV2.Segment.QueryRow ⟨q, a, true⟩ sr
       = (some Err.alreadyUsed, ⟨q, a, true⟩, 0))
  ∧ (PostgresV2.Segment.Query ⟨q, a, true⟩ qr cr
       = (some Err.alreadyUsed, ⟨q, a, true⟩, 0)) := by
  refine ⟨?_, rfl, ?_, rfl, rfl, rfl, ?_, rfl, ?_, rfl, rfl, rfl⟩
  · cases hb : b.execResult <;> simp [Pgx.Segment.Exec, hb]
  · cases hb : b.queryResult <;> simp [Pgx.Segment.Query, hb]
  · cases hb : er <;> simp [PostgresV2.Segment.Exec, hb]
  · cases hb : qr <;> simp [PostgresV2.Segment.Query, hb]

/-- Claim C4 counterexample: on the v2 postgres session (transactional,
then committed by a first `Commit`), a second `Commit` call issues another
backend `tx.Commit` (one more backend call) and returns that backend
outcome, instead of the descriptive "already committed" error the claim
requires for every transactional Session. -/
theorem v2_second_commit_hits_backend :
    ((PostgresV2.Session.Commit
        (PostgresV2.Session.Commit ⟨true, false⟩ none).2.1
        (some (Err.backend 7))).2.2 = 1)
  ∧ ((PostgresV2.Session.Commit
        (PostgresV2.Session.Commit ⟨true, false⟩ none).2.1
        (some (Err.backend 7))).1 = some (Err.backend 7)) := ⟨rfl, rfl⟩

/-- Claim C4 (amended): on the v3 pgx and pgxpool sessions, a second
`Commit` after a first `Commit` call returns the descriptive "already
committed" error and issues no backend commit; the v2 postgres and the
firestore sessions lack this guard. -/
theorem pgx_second_commit_guard (bc bc2 : Option Err) :
    (Pgx.Session.Commit (Pgx.Session.Commit ⟨true, false⟩ bc).2.1 bc2
       = (some (Err.msg "cannot commit a session that has already been committed"),
          ⟨true, true⟩, 0))
  ∧ (PgxPool.Session.Commit (PgxPool.Session.Commit ⟨true, false⟩ bc).2.1 bc2
       = (some (Err.msg "cannot commit a session that has already been committed"),
          ⟨true, true⟩, 0)) := ⟨rfl, rfl⟩

/-- Claim C5 counterexample: the v1 `Scheme` begun without a transaction
(`Octobe.Begin`, plain DB handle) silently returns nil from both `Commit`
and `Rollback` — not the "without transaction" errors the claim requires of
every non-transactional session. (It does issue zero backend calls.) -/
theorem v1_non_tx_commit_silent :
    (V1.Scheme.Commit V1.begin (some (Err.backend 3)) = (none, 0))
  ∧ (V1.Scheme.Rollback V1.begin (some (Err.backend 3)) = (none, 0)) :=
  ⟨rfl, rfl⟩

/-- Claim C5 (amended): for the v2 postgres, v3 pgx and firestore sessions
begun without transaction options, `Commit` and `Rollback` return the
respective "cannot commit/rollback without transaction" errors and issue
zero backend calls; the legacy v1 `Scheme` instead silently returns nil
(also with zero backend calls). -/
theorem non_transactional_guard (bc br : Option Err) (b : Firestore.Backend)
    (w : List Nat) (ro : Bool) (m : Nat) :
    (PostgresV2.Session.Commit ⟨false, false⟩ bc
       = (some (Err.msg "cannot commit without transaction"), ⟨false, false⟩, 0))
  ∧ (PostgresV2.Session.Rollback ⟨false, false⟩ br
       = (some (Err.msg "cannot rollback without transaction"), 0))
  ∧ (Pgx.Session.Commit ⟨false, false⟩ bc
       = (some (Err.msg "cannot commit without transaction"), ⟨false, false⟩, 0))
  ∧ (Pgx.Session.Rollback ⟨false, false⟩ br
       = (some (Err.msg "cannot rollback without transaction"), 0))
  ∧ (Firestore.Session.Commit ⟨none, w, ro, m, false⟩ b
       = { ret := some (Firestore.FsErr.simple "cannot commit without transaction"),
           commitCalls := 0, sleepCalls := 0, rollbackCalls := 0,
           session := ⟨none, w, ro, m, false⟩ })
  ∧ (Firestore.Session.Rollback ⟨none, w, ro, m, false⟩ b
       = (some (Firestore.FsErr.simple "cannot rollback without transaction"), 0)) :=
  ⟨rfl, rfl, rfl, rfl, rfl, rfl⟩

/-- Claim C6 counterexample: on a transactional, never-committed v2 session
whose backend rollback fails with an error, `WatchRollback` attempts the
rollback but surfaces nothing to the caller — the rollback error is
discarded (`_ = s.Rollback()`, void return), not combined with the
triggering condition. -/
theorem watch_rollback_discards_error :
    (PostgresV2.Session.WatchRollback ⟨true, false⟩ none (some (Err.backend 9))
       = { cbInvoked := false, rollbackCalls := 1, surfaced := [] })
  ∧ (Err.backend 9 ∉ (PostgresV2.Session.WatchRollback ⟨true, false⟩ none
        (some (Err.backend 9))).surfaced) := by
  exact ⟨rfl, by decide⟩

/-- Claim C6 (amended): the v2 driver session's `WatchRollback` attempts
Rollback when the session was never committed (without invoking the error
producer) and, on a committed session, invokes the producer and attempts
Rollback exactly when it yields a non-nil error — on both paths discarding
the Rollback outcome (the method returns nothing to the caller); the legacy
v1 `Scheme.WatchRollback` instead invokes the producer unconditionally,
tracks no committed state, attempts Rollback exactly when the producer
errs, and then returns the compound `errs` value in which both the
triggering error and the Rollback outcome remain inspectable. -/
theorem watch_rollback_behavior (tx : Bool) (e e2 : Err) (rb : Option Err)
    (cb : Option Err) (s : V1.Scheme) :
    (PostgresV2.Session.WatchRollback ⟨tx, false⟩ cb rb
       = { cbInvoked := false,
           rollbackCalls := (PostgresV2.Session.Rollback ⟨tx, false⟩ rb).2,
           surfaced := [] })
  ∧ (PostgresV2.Session.WatchRollback ⟨tx, true⟩ (some e) rb
       = { cbInvoked := true,
           rollbackCalls := (PostgresV2.Session.Rollback ⟨tx, true⟩ rb).2,
           surfaced := [] })
  ∧ (PostgresV2.Session.WatchRollback ⟨tx, true⟩ none rb
       = { cbInvoked := true, rollbackCalls := 0, surfaced := [] })
  ∧ (V1.Scheme.WatchRollback s (some e) rb
       = (some [some e, (V1.Scheme.Rollback s rb).1],
          (V1.Scheme.Rollback s rb).2))
  ∧ (V1.Scheme.WatchRollback s none rb = (none, 0))
  ∧ (V1.errsIs [some e, some e2] e = true)
  ∧ (V1.errsIs [some e, some e2] e2 = true) := by
  refine ⟨rfl, rfl, rfl, rfl, rfl, ?_, ?_⟩
  · simp [V1.errsIs]
  · simp [V1.errsIs]

/-- Claim C7 counterexample: a read-only firestore session whose
`maxAttempts` kept the zero default performs zero commit RPCs — not the
"exactly one backend commit attempt" the claim states — and returns nil. -/
theorem readonly_default_budget_no_attempt :
    Firestore.Session.Commit ⟨some 1, [], true, 0, false⟩ Firestore.alwaysAborted
      = { ret := none, commitCalls := 0, sleepCalls := 0, rollbackCalls := 0,
          session := ⟨some 1, [], true, 0, true⟩ } := rfl

/-- Claim C7 (amended): provided `maxAttempts ≥ 1`, a read-only firestore
session performs exactly one commit RPC and returns its outcome immediately
(no sleep, no retry, no rollback), whatever that outcome is — including the
Aborted condition. -/
theorem readonly_commit_single_attempt (t : Nat) (w : List Nat) (m : Nat)
    (b : Firestore.Backend) (h : 1 ≤ m) :
    Firestore.Session.Commit ⟨some t, w, true, m, false⟩ b
      = { ret := b.commitResult 0, commitCalls := 1, sleepCalls := 0,
          rollbackCalls := 0, session := ⟨some t, w, true, m, true⟩ } := by
  cases m with
  | zero => exact absurd h (by simp)
  | succ k => rfl

/-- Witness for `readonly_commit_single_attempt` at `maxAttempts = 1` and
the always-Aborted backend: the abort outcome is returned directly. -/
theorem readonly_commit_single_attempt_witness :
    Firestore.Session.Commit ⟨some 1, [], true, 1, false⟩ Firestore.alwaysAborted
      = { ret := some (Firestore.FsErr.status Firestore.Code.aborted "aborted"),
          commitCalls := 1, sleepCalls := 0, rollbackCalls := 0,
          session := ⟨some 1, [], true, 1, true⟩ } :=
  readonly_commit_single_attempt 1 [] 1 Firestore.alwaysAborted (by decide)

/-- Claim C8 counterexample: `Scheme.Handle` with a `SuppressError` option
equal to the backend error returned by the handler yields nil — the backend
error is swallowed, not propagated unchanged to the caller. -/
theorem suppress_option_swallows_backend_error :
    V1.Scheme.Handle V1.begin (some (Err.backend 5))
        [V1.Opt.suppressError (some (Err.backend 5))] = none := by
  decide

/-- Claim C8 (amended): backend errors are propagated to the caller
unchanged — `Handle` without suppress options returns exactly the handler's
error, and each pgx segment execution method returns exactly the backend
call's outcome — except when the caller explicitly passed a `SuppressError`
option equal to that error. -/
theorem backend_error_passthrough (e e2 : Err) (s : V1.Scheme) (q : String)
    (a : List Nat) (tx : Bool) (sr qr cr : Option Err) (er : Except Err Nat) :
    (V1.Scheme.Handle s (some e) [] = some e)
  ∧ (V1.suppressErrors (some e) [] = some e)
  ∧ ((Pgx.Segment.Exec ⟨q, a, false, tx⟩ ⟨Except.error e, sr, qr, cr⟩).1
       = Except.error e)
  ∧ ((Pgx.Segment.QueryRow ⟨q, a, false, tx⟩ ⟨er, sr, qr, cr⟩).1 = sr)
  ∧ ((Pgx.Segment.Query ⟨q, a, false, tx⟩ ⟨er, sr, some e2, cr⟩).1 = some e2)
  ∧ ((Pgx.Segment.Query ⟨q, a, false, tx⟩ ⟨er, sr, none, cr⟩).1 = cr) :=
  ⟨rfl, rfl, rfl, rfl, rfl, rfl⟩

/-- Claim C9: a transactional firestore session whose `maxAttempts` kept the
zero default never enters the retry loop: zero commit RPCs, zero sleeps,
zero rollbacks, the session is still marked committed (the deferred
assignment), and `Commit` returns nil as if it had succeeded. -/
theorem default_zero_attempts_commit (t : Nat) (w : List Nat) (ro : Bool)
    (b : Firestore.Backend) :
    Firestore.Session.Commit ⟨some t, w, ro, 0, false⟩ b
      = { ret := none, commitCalls := 0, sleepCalls := 0, rollbackCalls := 0,
          session := ⟨some t, w, ro, 0, true⟩ } := rfl

/-- Claim C10: on every transactional session (v2 postgres, v3 pgx, v3
pgxpool, firestore) a first `Commit` leaves the committed flag true whatever
the backend outcome `bc`; consequently v2 `WatchRollback` with a nil-yielding
producer performs no rollback after a failed (or any) `Commit`. -/
theorem committed_flag_set_on_commit (bc rb : Option Err) (t : Nat)
    (w : List Nat) (ro : Bool) (m : Nat) (b : Firestore.Backend) :
    ((PostgresV2.Session.Commit ⟨true, false⟩ bc).2.1.committed = true)
  ∧ ((Pgx.Session.Commit ⟨true, false⟩ bc).2.1.committed = true)
  ∧ ((PgxPool.Session.Commit ⟨true, false⟩ bc).2.1.committed = true)
  ∧ ((Firestore.Session.Commit ⟨some t, w, ro, m, false⟩ b).session.committed
       = true)
  ∧ (PostgresV2.Session.WatchRollback
        (PostgresV2.Session.Commit ⟨true, false⟩ bc).2.1 none rb
       = { cbInvoked := true, rollbackCalls := 0, surfaced := [] }) :=
  ⟨rfl, rfl, rfl, rfl, rfl⟩

end Octobe
